import Mathlib

/-!
Verification development for the `contractsLib-rag` repository: a shallow
embedding of its cross-service contract dependency graph.

The embedding covers:
* the resource trees declared by each `OdmdCrossRefProducer` subclass, with
  their ordinal (positional) and name (pathPart) addressing;
* the `RagContracts` registry constructor as an event trace: build
  construction, duplicate detection, environment validation, and the fixed
  `wireConsuming()` sequence, taken from `src/rag-contracts.ts` and the
  service files under `src/services/`;
* the singleton mechanism of `RagContracts` (static `_inst` / `inst`);
* the consumer edges with their `defaultIfAbsent` fallbacks, and the
  platform's fallback resolution contract;
* the hierarchical trust wildcard matching convention.
-/

/-! ## Resource trees (OdmdCrossRefProducer children) -/

/-- A node of a producer resource tree: `pathPart`, the `s3artifact` flag, and
the ordered children, exactly as passed to the `OdmdCrossRefProducer`
constructors in the service files. -/
inductive ResourceNode : Type where
  | mk (pathPart : String) (s3artifact : Bool) (children : List ResourceNode) : ResourceNode

def ResourceNode.pathPart : ResourceNode → String
  | .mk p _ _ => p

def ResourceNode.s3artifact : ResourceNode → Bool
  | .mk _ a _ => a

def ResourceNode.children : ResourceNode → List ResourceNode
  | .mk _ _ c => c

/-- Name-based addressing: the child whose `pathPart` equals `name`. -/
def findChild (cs : List ResourceNode) (name : String) : Option ResourceNode :=
  cs.find? (fun n => n.pathPart == name)

/-- Ordinal addressing along a path of child indices (the `children![i]!`
accesses of the TypeScript getters). -/
def nodeAtPath (cs : List ResourceNode) : List Nat → Option ResourceNode
  | [] => none
  | [i] => cs[i]?
  | i :: rest =>
    match cs[i]? with
    | some node => nodeAtPath node.children rest
    | none => none

/-- Name-based addressing along a path of `pathPart` names. -/
def nodeByNamePath (cs : List ResourceNode) : List String → Option ResourceNode
  | [] => none
  | [n] => findChild cs n
  | n :: rest =>
    match findChild cs n with
    | some node => nodeByNamePath node.children rest
    | none => none

/-! ### DocumentStorageResourceProducer (document-ingestion.ts) -/

def DocumentStorageResourceProducer.children : List ResourceNode :=
  [ .mk "document-bucket" false [],
    .mk "quarantine-bucket" false [],
    .mk "document-metadata-schema-s3-url" true [] ]

def DocumentStorageResourceProducer.documentBucket : Option ResourceNode :=
  nodeAtPath DocumentStorageResourceProducer.children [0]

def DocumentStorageResourceProducer.quarantineBucket : Option ResourceNode :=
  nodeAtPath DocumentStorageResourceProducer.children [1]

def DocumentStorageResourceProducer.documentMetadataSchemaS3Url : Option ResourceNode :=
  nodeAtPath DocumentStorageResourceProducer.children [2]

/-! ### VectorStorageProducer and VectorStorageStatusApiProducer (vector-storage.ts) -/

def VectorStorageProducer.children : List ResourceNode :=
  [ .mk "vector-database-endpoint" false [],
    .mk "vector-index-name" false [],
    .mk "vector-metadata-bucket" false [],
    .mk "vector-backup-bucket" false [],
    .mk "upsert-request-schema-s3-url" false [],
    .mk "vector-metadata-schema-s3-url" false [] ]

def VectorStorageProducer.vectorDatabaseEndpoint : Option ResourceNode :=
  nodeAtPath VectorStorageProducer.children [0]

def VectorStorageProducer.vectorIndexName : Option ResourceNode :=
  nodeAtPath VectorStorageProducer.children [1]

def VectorStorageProducer.vectorMetadataBucket : Option ResourceNode :=
  nodeAtPath VectorStorageProducer.children [2]

def VectorStorageProducer.vectorBackupBucket : Option ResourceNode :=
  nodeAtPath VectorStorageProducer.children [3]

def VectorStorageProducer.upsertRequestSchemaS3Url : Option ResourceNode :=
  nodeAtPath VectorStorageProducer.children [4]

def VectorStorageProducer.vectorMetadataSchemaS3Url : Option ResourceNode :=
  nodeAtPath VectorStorageProducer.children [5]

def VectorStorageStatusApiProducer.children : List ResourceNode :=
  [ .mk "status-api-endpoint" false [],
    .mk "status-response-schema" false [] ]

def VectorStorageStatusApiProducer.statusApiEndpoint : Option ResourceNode :=
  nodeAtPath VectorStorageStatusApiProducer.children [0]

def VectorStorageStatusApiProducer.statusResponseSchema : Option ResourceNode :=
  nodeAtPath VectorStorageStatusApiProducer.children [1]

/-! ### ProcessedContentEventProducer (document-processing.ts) -/

def ProcessedContentEventProducer.children : List ResourceNode :=
  [ .mk "processed-content-bus" false
      [ .mk "content-processed-event-schema" false [],
        .mk "processing-completed-event-schema" false [] ] ]

def ProcessedContentEventProducer.eventBridge : Option ResourceNode :=
  nodeAtPath ProcessedContentEventProducer.children [0]

def ProcessedContentEventProducer.contentProcessedSchema : Option ResourceNode :=
  nodeAtPath ProcessedContentEventProducer.children [0, 0]

def ProcessedContentEventProducer.processingCompletedSchema : Option ResourceNode :=
  nodeAtPath ProcessedContentEventProducer.children [0, 1]

/-! ### EmbeddingStorageProducer (embedding.ts) -/

def EmbeddingStorageProducer.children : List ResourceNode :=
  [ .mk "embeddings-bucket" false [],
    .mk "embedding-status-bucket" false [] ]

def EmbeddingStorageProducer.embeddingsBucket : Option ResourceNode :=
  nodeAtPath EmbeddingStorageProducer.children [0]

def EmbeddingStorageProducer.embeddingStatusBucket : Option ResourceNode :=
  nodeAtPath EmbeddingStorageProducer.children [1]

/-! ### VectorSearchProxyApiProducer (knowledge-retrieval.ts) -/

def VectorSearchProxyApiProducer.children : List ResourceNode :=
  [ .mk "vector-search-proxy-api" false
      [ .mk "vector-search-endpoint" false [],
        .mk "health-check-endpoint" false [],
        .mk "search-request-schema" false [],
        .mk "search-response-schema" false [],
        .mk "home-server-config" false [] ] ]

def VectorSearchProxyApiProducer.proxyApi : Option ResourceNode :=
  nodeAtPath VectorSearchProxyApiProducer.children [0]

def VectorSearchProxyApiProducer.vectorSearchEndpoint : Option ResourceNode :=
  nodeAtPath VectorSearchProxyApiProducer.children [0, 0]

def VectorSearchProxyApiProducer.healthCheckEndpoint : Option ResourceNode :=
  nodeAtPath VectorSearchProxyApiProducer.children [0, 1]

def VectorSearchProxyApiProducer.searchRequestSchema : Option ResourceNode :=
  nodeAtPath VectorSearchProxyApiProducer.children [0, 2]

def VectorSearchProxyApiProducer.searchResponseSchema : Option ResourceNode :=
  nodeAtPath VectorSearchProxyApiProducer.children [0, 3]

def VectorSearchProxyApiProducer.homeServerConfig : Option ResourceNode :=
  nodeAtPath VectorSearchProxyApiProducer.children [0, 4]

/-! ### GenerationApiProducer (generation.ts) -/

def GenerationApiProducer.children : List ResourceNode :=
  [ .mk "generation-api" false
      [ .mk "generation-request-schema" false [],
        .mk "generation-response-schema" false [],
        .mk "conversation-schema" false [],
        .mk "feedback-schema" false [] ],
    .mk "web-ui-cloudfront-url" false [],
    .mk "web-ui-s3-bucket" false [] ]

def GenerationApiProducer.generationApi : Option ResourceNode :=
  nodeAtPath GenerationApiProducer.children [0]

def GenerationApiProducer.generationRequestSchema : Option ResourceNode :=
  nodeAtPath GenerationApiProducer.children [0, 0]

def GenerationApiProducer.generationResponseSchema : Option ResourceNode :=
  nodeAtPath GenerationApiProducer.children [0, 1]

def GenerationApiProducer.conversationSchema : Option ResourceNode :=
  nodeAtPath GenerationApiProducer.children [0, 2]

def GenerationApiProducer.feedbackSchema : Option ResourceNode :=
  nodeAtPath GenerationApiProducer.children [0, 3]

def GenerationApiProducer.webUiCloudFrontUrl : Option ResourceNode :=
  nodeAtPath GenerationApiProducer.children [1]

def GenerationApiProducer.webUiS3Bucket : Option ResourceNode :=
  nodeAtPath GenerationApiProducer.children [2]

example : DocumentStorageResourceProducer.quarantineBucket
    = findChild DocumentStorageResourceProducer.children "quarantine-bucket" := by rfl

/-! ## The registry constructor as an event trace

`RagContracts`'s constructor (rag-contracts.ts) first runs the base-class
constructor (which builds the contracts-lib build, the user-auth build and the
networking build), then constructs the six RAG service builds, checks
`odmdBuilds` for duplicates, validates the environment variables, and finally
runs the fixed `wireConsuming()` sequence.  We model this run as a list of
events. -/

/-- The builds registered in `odmdBuilds`. -/
inductive BuildId : Type where
  | contractsNpm
  | userAuth
  | networking
  | ingestion
  | processing
  | embedding
  | vectorStorage
  | knowledgeRetrieval
  | generation
deriving DecidableEq, Repr

/-- One step of the constructor run.  `producerCreated owner enver field`
records a `new OdmdCrossRefProducer(...)` assigned to property `field` of the
`enver` environment of build `owner`; `consumerCreated` records a
`new OdmdCrossRefConsumer(...)` with its target producer property and the
declared `defaultIfAbsent` fallback; `producerRead reader owner field` records
that code of build `reader` dereferenced the producer property `field` of an
enver of build `owner`; `buildConstructed b` marks the completion of build
`b`'s construction; `wireStart`/`wireEnd` bracket a `wireConsuming()` call. -/
inductive Event : Type where
  | buildConstructed (b : BuildId)
  | producerCreated (owner : BuildId) (enver : String) (field : String)
  | consumerCreated (owner : BuildId) (enver : String) (field : String)
      (targetOwner : BuildId) (targetField : String) (defaultIfAbsent : Option String)
  | producerRead (reader : BuildId) (owner : BuildId) (field : String)
  | wireStart (b : BuildId)
  | wireEnd (b : BuildId)
deriving DecidableEq, Repr

/-- Which builds define a `wireConsuming()` method (on the build or, for
user-auth, on its single enver).  `RagEmbeddingBuild` defines none: the
embedding envers create their consumer in their constructor.
`RagGenerationBuild` does define one (generation.ts). -/
def definesWireConsuming : BuildId → Bool
  | .ingestion => true
  | .processing => true
  | .vectorStorage => true
  | .knowledgeRetrieval => true
  | .generation => true
  | .userAuth => true
  | _ => false

/-- `RagDocumentIngestionEnver` constructor: three producers
(document-ingestion.ts). -/
def ingestionEnverCtorEvents (enver : String) : List Event :=
  [ .producerCreated .ingestion enver "documentStorageResources",
    .producerCreated .ingestion enver "authCallbackUrl",
    .producerCreated .ingestion enver "logoutUrl" ]

/-- `RagDocumentProcessingEnver` constructor: four producers
(document-processing.ts). -/
def processingEnverCtorEvents (enver : String) : List Event :=
  [ .producerCreated .processing enver "processedContentQueue",
    .producerCreated .processing enver "processedContentEvents",
    .producerCreated .processing enver "s3PollerRoleArn",
    .producerCreated .processing enver "documentProcessorRoleArn" ]

/-- `RagEmbeddingEnver` constructor (embedding.ts): it dereferences the dev
document-processing enver's `processedContentStorage` producer property and
creates the `processedContentSubscription` consumer right in the constructor,
then creates the `embeddingStorage` producer. -/
def embeddingEnverCtorEvents (enver : String) : List Event :=
  [ .producerRead .embedding .processing "processedContentStorage",
    .consumerCreated .embedding enver "processedContentSubscription"
      .processing "processedContentStorage/processedContentBucket" none,
    .producerCreated .embedding enver "embeddingStorage" ]

/-- `RagVectorStorageEnver` constructor: two producers (vector-storage.ts). -/
def vectorStorageEnverCtorEvents (enver : String) : List Event :=
  [ .producerCreated .vectorStorage enver "vectorStorage",
    .producerCreated .vectorStorage enver "statusApi" ]

/-- `RagKnowledgeRetrievalEnver` constructor: one producer
(knowledge-retrieval.ts). -/
def knowledgeRetrievalEnverCtorEvents (enver : String) : List Event :=
  [ .producerCreated .knowledgeRetrieval enver "vectorSearchProxyApi" ]

/-- `RagGenerationEnver` constructor: one producer (generation.ts). -/
def generationEnverCtorEvents (enver : String) : List Event :=
  [ .producerCreated .generation enver "generationApi" ]

/-- `RagUserAuthEnver` constructor (user-auth.ts).  The first three producers
(`idProviderName`, `idProviderClientId`, `homeServerDomainName`) are provided
by the external base class `OdmdEnverUserAuth`, which the source comments and
the wiring code rely on; the remaining producers are created explicitly in the
constructor. -/
def userAuthEnverCtorEvents (enver : String) : List Event :=
  [ .producerCreated .userAuth enver "idProviderName",
    .producerCreated .userAuth enver "idProviderClientId",
    .producerCreated .userAuth enver "homeServerDomainName",
    .producerCreated .userAuth enver "idProviderClientSecret",
    .producerCreated .userAuth enver "userPoolId",
    .producerCreated .userAuth enver "userPoolClientId",
    .producerCreated .userAuth enver "userPoolDomain",
    .producerCreated .userAuth enver "jwtSecretKey",
    .producerCreated .userAuth enver "tokenValidationEndpoint",
    .producerCreated .userAuth enver "refreshTokenEndpoint",
    .producerCreated .userAuth enver "loginUrl",
    .producerCreated .userAuth enver "logoutUrl",
    .producerCreated .userAuth enver "signupUrl",
    .producerCreated .userAuth enver "userManagementApi",
    .producerCreated .userAuth enver "userProfileApi",
    .producerCreated .userAuth enver "userPreferencesApi",
    .producerCreated .userAuth enver "rolesManagementApi",
    .producerCreated .userAuth enver "permissionsApi",
    .producerCreated .userAuth enver "sessionManagementApi",
    .producerCreated .userAuth enver "sessionValidationApi",
    .producerCreated .userAuth enver "mfaSetupApi",
    .producerCreated .userAuth enver "mfaValidationApi",
    .producerCreated .userAuth enver "authAuditApi",
    .producerCreated .userAuth enver "authMetricsApi",
    .producerCreated .userAuth enver "oauthAuthorizationEndpoint",
    .producerCreated .userAuth enver "oauthTokenEndpoint",
    .producerCreated .userAuth enver "oidcDiscoveryEndpoint",
    .producerCreated .userAuth enver "jwksEndpoint" ]

/-- Events of constructing one build: its envers' constructor events (each
RAG service build creates a `dev` and a `prod` enver in `initializeEnvers`;
user-auth creates a single enver), closed by a `buildConstructed` marker. -/
def buildConstructionEvents : BuildId → List Event
  | .contractsNpm => [ .buildConstructed .contractsNpm ]
  | .userAuth => userAuthEnverCtorEvents "auth0" ++ [ .buildConstructed .userAuth ]
  | .networking => [ .buildConstructed .networking ]
  | .ingestion =>
      ingestionEnverCtorEvents "dev" ++ ingestionEnverCtorEvents "prod"
        ++ [ .buildConstructed .ingestion ]
  | .processing =>
      processingEnverCtorEvents "dev" ++ processingEnverCtorEvents "prod"
        ++ [ .buildConstructed .processing ]
  | .embedding =>
      embeddingEnverCtorEvents "dev" ++ embeddingEnverCtorEvents "prod"
        ++ [ .buildConstructed .embedding ]
  | .vectorStorage =>
      vectorStorageEnverCtorEvents "dev" ++ vectorStorageEnverCtorEvents "prod"
        ++ [ .buildConstructed .vectorStorage ]
  | .knowledgeRetrieval =>
      knowledgeRetrievalEnverCtorEvents "dev" ++ knowledgeRetrievalEnverCtorEvents "prod"
        ++ [ .buildConstructed .knowledgeRetrieval ]
  | .generation =>
      generationEnverCtorEvents "dev" ++ generationEnverCtorEvents "prod"
        ++ [ .buildConstructed .generation ]

/-- `RagDocumentProcessingEnver.wireConsuming` (document-processing.ts):
two consumers against the ingestion enver's document storage producer, each
with a `defaultIfAbsent` fallback and `trigger: no`. -/
def processingEnverWireEvents (enver : String) : List Event :=
  [ .producerRead .processing .ingestion "documentStorageResources",
    .consumerCreated .processing enver "documentBucket"
      .ingestion "documentStorageResources/document-bucket" (some "default-bucket-name"),
    .producerRead .processing .ingestion "documentStorageResources",
    .consumerCreated .processing enver "quarantineBucket"
      .ingestion "documentStorageResources/quarantine-bucket"
      (some "default-quarantine-bucket-name") ]

/-- `RagVectorStorageEnver.wireConsuming` (vector-storage.ts): subscriptions
to the dev embedding enver's storage producer and to the user-auth enver's
identity producers; `homeServerDomain` declares a fallback. -/
def vectorStorageEnverWireEvents (enver : String) : List Event :=
  [ .producerRead .vectorStorage .embedding "embeddingStorage",
    .consumerCreated .vectorStorage enver "embeddingSubscription"
      .embedding "embeddingStorage/embeddings-bucket" none,
    .producerRead .vectorStorage .embedding "embeddingStorage",
    .consumerCreated .vectorStorage enver "embeddingStatusSchemaS3Url"
      .embedding "embeddingStorage/embeddingStatusSchemaS3Url" none,
    .producerRead .vectorStorage .userAuth "idProviderClientId",
    .consumerCreated .vectorStorage enver "authProviderClientId"
      .userAuth "idProviderClientId" none,
    .producerRead .vectorStorage .userAuth "idProviderName",
    .consumerCreated .vectorStorage enver "authProviderName"
      .userAuth "idProviderName" none,
    .producerRead .vectorStorage .userAuth "homeServerDomainName",
    .consumerCreated .vectorStorage enver "homeServerDomain"
      .userAuth "homeServerDomainName" (some "https://localhost:3000") ]

/-- `RagKnowledgeRetrievalEnver.wireConsuming` (knowledge-retrieval.ts):
three consumers against the user-auth enver, each with a fallback. -/
def knowledgeRetrievalEnverWireEvents (enver : String) : List Event :=
  [ .producerRead .knowledgeRetrieval .userAuth "idProviderClientId",
    .consumerCreated .knowledgeRetrieval enver "authProviderClientId"
      .userAuth "idProviderClientId" (some "default-client-id"),
    .producerRead .knowledgeRetrieval .userAuth "idProviderName",
    .consumerCreated .knowledgeRetrieval enver "authProviderName"
      .userAuth "idProviderName" (some "default-provider-name"),
    .producerRead .knowledgeRetrieval .userAuth "homeServerDomainName",
    .consumerCreated .knowledgeRetrieval enver "homeServerDomain"
      .userAuth "homeServerDomainName" (some "https://localhost:3000") ]

/-- `RagUserAuthEnver.wireConsuming` (user-auth.ts): for each document
ingestion enver (index 0 = dev, 1 = prod) it consumes the enver's
`authCallbackUrl` and `logoutUrl` producers. -/
def userAuthEnverWireEvents : List Event :=
  [ .producerRead .userAuth .ingestion "authCallbackUrl",
    .consumerCreated .userAuth "auth0" "doc-ing-callback-0"
      .ingestion "authCallbackUrl" none,
    .producerRead .userAuth .ingestion "logoutUrl",
    .consumerCreated .userAuth "auth0" "doc-ing-logout-0"
      .ingestion "logoutUrl" none,
    .producerRead .userAuth .ingestion "authCallbackUrl",
    .consumerCreated .userAuth "auth0" "doc-ing-callback-1"
      .ingestion "authCallbackUrl" none,
    .producerRead .userAuth .ingestion "logoutUrl",
    .consumerCreated .userAuth "auth0" "doc-ing-logout-1"
      .ingestion "logoutUrl" none ]

/-- `RagDocumentIngestionEnver.wireConsuming` (document-ingestion.ts): two
consumers against the user-auth enver, one against the matching processing
enver's status API, and — only where the `find` scans succeed — one against
the embedding enver's and one against the vector-storage enver's status API.
Because both embedding envers and both vector-storage wiring targets point at
the *dev* processing/embedding envers, those scans succeed only for the dev
ingestion enver (`isDev`). -/
def ingestionEnverWireEvents (enver : String) (isDev : Bool) : List Event :=
  [ .producerRead .ingestion .userAuth "idProviderClientId",
    .consumerCreated .ingestion enver "authProviderClientId"
      .userAuth "idProviderClientId" none,
    .producerRead .ingestion .userAuth "idProviderName",
    .consumerCreated .ingestion enver "authProviderName"
      .userAuth "idProviderName" none,
    .producerRead .ingestion .processing "statusApi",
    .consumerCreated .ingestion enver "processingStatusApiEndpoint"
      .processing "statusApi/status-api-endpoint" none ]
  ++ (if isDev then
    [ .producerRead .ingestion .embedding "statusApi",
      .consumerCreated .ingestion enver "embeddingStatusApiEndpoint"
        .embedding "statusApi/status-api-endpoint" none,
      .producerRead .ingestion .vectorStorage "statusApi",
      .consumerCreated .ingestion enver "vectorStorageStatusApiEndpoint"
        .vectorStorage "statusApi/status-api-endpoint" none ]
    else [])

/-- The wiring pass of the `RagContracts` constructor, in source order
(rag-contracts.ts lines 86–94): document processing, vector storage,
knowledge retrieval, the user-auth enver, and document ingestion last.
A build-level `wireConsuming()` iterates over its envers (dev then prod). -/
def ragWiringEvents : List Event :=
  [ Event.wireStart .processing ]
    ++ processingEnverWireEvents "dev" ++ processingEnverWireEvents "prod"
    ++ [ Event.wireEnd .processing ]
  ++ [ Event.wireStart .vectorStorage ]
    ++ vectorStorageEnverWireEvents "dev" ++ vectorStorageEnverWireEvents "prod"
    ++ [ Event.wireEnd .vectorStorage ]
  ++ [ Event.wireStart .knowledgeRetrieval ]
    ++ knowledgeRetrievalEnverWireEvents "dev" ++ knowledgeRetrievalEnverWireEvents "prod"
    ++ [ Event.wireEnd .knowledgeRetrieval ]
  ++ [ Event.wireStart .userAuth ]
    ++ userAuthEnverWireEvents
    ++ [ Event.wireEnd .userAuth ]
  ++ [ Event.wireStart .ingestion ]
    ++ ingestionEnverWireEvents "dev" true ++ ingestionEnverWireEvents "prod" false
    ++ [ Event.wireEnd .ingestion ]


/-! ## Environment validation and the constructor body -/

/-- The process environment variables the constructor reads.  `none` models an
unset variable; `some ""` an empty one (both are falsy in the JavaScript
checks). -/
structure EnvConfig where
  cdkCliVersion : Option String
  cdkDefaultRegion : Option String
  cdkDefaultAccount : Option String
  codebuildBuildArn : Option String
deriving DecidableEq, Repr

/-- JavaScript falsiness of an optional string: unset or empty. -/
def strFalsy : Option String → Bool
  | none => true
  | some s => s.isEmpty

/-- The errors the constructor can raise. -/
inductive RagError : Type where
  | singletonViolation
  | duplicatedBuilds
  | missingCdkCliVersion
  | missingCodebuildArn
  | missingRegionOrAccount
deriving DecidableEq, Repr

/-- `buildAccount` resolution: `CDK_DEFAULT_ACCOUNT` if truthy, otherwise the
fifth `:`-separated field of `CODEBUILD_BUILD_ARN` (which must be set). -/
def resolveBuildAccount (env : EnvConfig) : Except RagError String :=
  if strFalsy env.cdkDefaultAccount = false then
    .ok (env.cdkDefaultAccount.getD "")
  else if strFalsy env.codebuildBuildArn then
    .error .missingCodebuildArn
  else
    .ok (((env.codebuildBuildArn.getD "").splitOn ":").getD 4 "")

/-- Result of running the constructor body: the executed events and the error
it raised, if any. -/
structure RunResult where
  events : List Event
  error : Option RagError
deriving DecidableEq, Repr

/-- The `RagContracts` constructor body after the singleton guard
(rag-contracts.ts lines 48–98): construct all builds, fail on duplicated
`odmdBuilds` entries, validate the environment, then run the wiring pass. -/
def ragConstructorBody (builds : List BuildId) (env : EnvConfig) : RunResult :=
  if builds.dedup.length ≠ builds.length then
    { events := builds.flatMap buildConstructionEvents, error := some .duplicatedBuilds }
  else if strFalsy env.cdkCliVersion then
    { events := builds.flatMap buildConstructionEvents, error := some .missingCdkCliVersion }
  else
    match resolveBuildAccount env with
    | .error e => { events := builds.flatMap buildConstructionEvents, error := some e }
    | .ok acct =>
      if strFalsy env.cdkDefaultRegion || acct.isEmpty then
        { events := builds.flatMap buildConstructionEvents, error := some .missingRegionOrAccount }
      else
        { events := builds.flatMap buildConstructionEvents ++ ragWiringEvents, error := none }

/-- The builds registered by the constructor, in construction order: the
base-class builds (contracts lib, user auth, networking) followed by the six
RAG service builds. -/
def ragOdmdBuilds : List BuildId :=
  [ .contractsNpm, .userAuth, .networking,
    .ingestion, .processing, .embedding,
    .vectorStorage, .knowledgeRetrieval, .generation ]

/-- The environment the repository's own tests run under. -/
def validEnv : EnvConfig :=
  { cdkCliVersion := some "2.0.0",
    cdkDefaultRegion := some "us-east-1",
    cdkDefaultAccount := some "123456789012",
    codebuildBuildArn := none }

/-- The event trace of a successful `new RagContracts(app)` run. -/
def ragConstructorTrace : List Event :=
  (ragConstructorBody ragOdmdBuilds validEnv).events

/-! ## The singleton layer -/

/-- The process-wide static state: `RagContracts._inst`. -/
structure GlobalState where
  inst : Option Nat
deriving DecidableEq, Repr

/-- Before any construction, `_inst` is unset. -/
def initialGlobalState : GlobalState := { inst := none }

/-- The static accessor `RagContracts.inst`: it just returns `_inst`. -/
def ragContractsInst (s : GlobalState) : Option Nat := s.inst

/-- Outcome of a construction attempt: the new static state, the result
(`ok` with the new instance's identity, or the raised error), and the body
events that were executed. -/
structure ConstructOutcome where
  state : GlobalState
  result : Except RagError Nat
  run : List Event
deriving Repr

/-- `new RagContracts(app)`: after the base-class constructor, the singleton
guard throws if `_inst` is already set; otherwise `_inst` is assigned *before*
the rest of the body runs (so it stays assigned even if the body throws),
and then the body executes. -/
def constructRagContracts (s : GlobalState) (newId : Nat)
    (builds : List BuildId) (env : EnvConfig) : ConstructOutcome :=
  match s.inst with
  | some _ => { state := s, result := .error .singletonViolation, run := [] }
  | none =>
    match (ragConstructorBody builds env).error with
    | some e => { state := { inst := some newId }, result := .error e,
                  run := (ragConstructorBody builds env).events }
    | none => { state := { inst := some newId }, result := .ok newId,
                run := (ragConstructorBody builds env).events }

/-! ## Trace observations -/

/-- The builds whose `wireConsuming()` the trace invokes, in order. -/
def wireStartsOf (t : List Event) : List BuildId :=
  t.filterMap fun e =>
    match e with
    | .wireStart b => some b
    | _ => none

/-- Whether an event is part of a wiring call. -/
def Event.isWire : Event → Bool
  | .wireStart _ => true
  | .wireEnd _ => true
  | _ => false

/-- Whether an event opens a wiring call. -/
def Event.isWireStart : Event → Bool
  | .wireStart _ => true
  | _ => false

/-- The construction phase of a trace: everything before the first
`wireStart`. -/
def constructionPhase (t : List Event) : List Event :=
  t.takeWhile fun e => e.isWireStart = false

/-- The wiring phase of a trace: the first `wireStart` and everything after. -/
def wiringPhase (t : List Event) : List Event :=
  t.dropWhile fun e => e.isWireStart = false

/-- The consumers created in a trace fragment: (owner build, enver, field). -/
def consumersCreatedIn (t : List Event) : List (BuildId × String × String) :=
  t.filterMap fun e =>
    match e with
    | .consumerCreated owner enver field _ _ _ => some (owner, enver, field)
    | _ => none

/-- The producers created in a trace fragment. -/
def producersCreatedIn (t : List Event) : List (BuildId × String × String) :=
  t.filterMap fun e =>
    match e with
    | .producerCreated owner enver field => some (owner, enver, field)
    | _ => none

/-- The builds whose construction completes in a trace fragment. -/
def buildsConstructedIn (t : List Event) : List BuildId :=
  t.filterMap fun e =>
    match e with
    | .buildConstructed b => some b
    | _ => none

/-- Walks the trace collecting every producer read, issued from inside a
wiring call, whose target producer belongs to a build that defines
`wireConsuming()` but whose own `wireConsuming()` has not yet completed at
the moment of the read: `(reader, target owner, target field)`. -/
def wiringOrderViolationsAux : List Event → List BuildId → Bool → List (BuildId × BuildId × String)
  | [], _, _ => []
  | .wireStart _ :: rest, wired, _ => wiringOrderViolationsAux rest wired true
  | .wireEnd b :: rest, wired, inWiring => wiringOrderViolationsAux rest (b :: wired) inWiring
  | .producerRead reader owner field :: rest, wired, inWiring =>
    if inWiring && definesWireConsuming owner && !(wired.contains owner) then
      (reader, owner, field) :: wiringOrderViolationsAux rest wired inWiring
    else
      wiringOrderViolationsAux rest wired inWiring
  | _ :: rest, wired, inWiring => wiringOrderViolationsAux rest wired inWiring

def wiringOrderViolations (t : List Event) : List (BuildId × BuildId × String) :=
  wiringOrderViolationsAux t [] false

/-- Checks that every producer read in the trace happens after the
construction of the build that owns the read producer has completed. -/
def readsRespectConstructionAux : List Event → List BuildId → Bool
  | [], _ => true
  | .buildConstructed b :: rest, done => readsRespectConstructionAux rest (b :: done)
  | .producerRead _ owner _ :: rest, done =>
    done.contains owner && readsRespectConstructionAux rest done
  | _ :: rest, done => readsRespectConstructionAux rest done

def readsRespectConstruction (t : List Event) : Bool :=
  readsRespectConstructionAux t []

example : wireStartsOf ragConstructorTrace
    = [.processing, .vectorStorage, .knowledgeRetrieval, .userAuth, .ingestion] := by decide

example : readsRespectConstruction ragConstructorTrace = true := by decide

example : wiringOrderViolations ragConstructorTrace ≠ [] := by decide

/-! ## Consumer edges and fallback resolution -/

/-- A consumer edge as created by `new OdmdCrossRefConsumer(owner, id, target,
options?)`: the construct id, the target producer (its owning build and
producer path), the declared `defaultIfAbsent` fallback, and whether the
options passed `trigger: 'no'`. -/
structure ConsumerEdge where
  id : String
  targetOwner : BuildId
  targetField : String
  defaultIfAbsent : Option String
  triggerNo : Bool
deriving DecidableEq, Repr

/-- The `documentBucket` consumer created by
`RagDocumentProcessingEnver.wireConsuming` (document-processing.ts lines
83–89): target is the ingestion enver's document bucket node, fallback
`default-bucket-name`, `trigger: 'no'`. -/
def documentBucketConsumer : ConsumerEdge :=
  { id := "doc-bucket",
    targetOwner := .ingestion,
    targetField := "documentStorageResources/document-bucket",
    defaultIfAbsent := some "default-bucket-name",
    triggerNo := true }

/-- The `quarantineBucket` consumer created by
`RagDocumentProcessingEnver.wireConsuming` (document-processing.ts lines
91–97). -/
def quarantineBucketConsumer : ConsumerEdge :=
  { id := "quarantine-bucket",
    targetOwner := .ingestion,
    targetField := "documentStorageResources/quarantine-bucket",
    defaultIfAbsent := some "default-quarantine-bucket-name",
    triggerNo := true }

/-- A store of already-resolved producer values, keyed by (owning build,
producer path). -/
def ResolutionStore : Type := List ((BuildId × String) × String)

/-- Modelled from the spec: the resolution engine (`getSharedValue`) lives in
the external `@ondemandenv/contracts-lib-base` platform package and is absent
from this repository; per the spec's fallback-resolution contract, it returns
the stored value when the consumer's target has been resolved, and the
consumer's declared `defaultIfAbsent` fallback when the target has never been
resolved. -/
def getSharedValue (store : ResolutionStore) (c : ConsumerEdge) : Option String :=
  match store.find? (fun kv => kv.1 == (c.targetOwner, c.targetField)) with
  | some kv => some kv.2
  | none => c.defaultIfAbsent

/-- Lookup of a consumer's target in a resolution store (used to state that a
target "has never been resolved"). -/
def storeLookup (store : ResolutionStore) (c : ConsumerEdge) : Option ((BuildId × String) × String) :=
  store.find? (fun kv => kv.1 == (c.targetOwner, c.targetField))

/-! ## Enver consumer-field state (wireConsuming lifecycle)

`RagVectorStorageEnver` declares its consumer fields with TypeScript
definite-assignment assertions (`!:`); they hold no value until
`wireConsuming()` assigns them, and the class contains no wired-state flag
and no guard of any kind.  Reading a field before wiring yields `undefined`
(modelled as `none`), and a second `wireConsuming()` call simply reruns the
same assignments. -/

structure RagVectorStorageEnverState where
  embeddingSubscription : Option ConsumerEdge
  embeddingStatusSchemaS3Url : Option ConsumerEdge
  authProviderClientId : Option ConsumerEdge
  authProviderName : Option ConsumerEdge
  homeServerDomain : Option ConsumerEdge
deriving DecidableEq, Repr

/-- The state of a freshly constructed `RagVectorStorageEnver`: its
constructor (vector-storage.ts lines 117–122) creates only producers and
assigns none of the consumer fields. -/
def ragVectorStorageEnverInit : RagVectorStorageEnverState :=
  { embeddingSubscription := none,
    embeddingStatusSchemaS3Url := none,
    authProviderClientId := none,
    authProviderName := none,
    homeServerDomain := none }

/-- `RagVectorStorageEnver.wireConsuming` (vector-storage.ts lines 141–164):
assigns all five consumer fields; no guard, no error path in this
repository's code. -/
def ragVectorStorageWireConsuming (s : RagVectorStorageEnverState) : RagVectorStorageEnverState :=
  { s with
    embeddingSubscription := some
      { id := "embedding-subscription", targetOwner := .embedding,
        targetField := "embeddingStorage/embeddings-bucket",
        defaultIfAbsent := none, triggerNo := false },
    embeddingStatusSchemaS3Url := some
      { id := "embeddingStatusSchemaS3Url", targetOwner := .embedding,
        targetField := "embeddingStorage/embeddingStatusSchemaS3Url",
        defaultIfAbsent := none, triggerNo := false },
    authProviderClientId := some
      { id := "id-provider-client-id", targetOwner := .userAuth,
        targetField := "idProviderClientId",
        defaultIfAbsent := none, triggerNo := false },
    authProviderName := some
      { id := "id-provider-name", targetOwner := .userAuth,
        targetField := "idProviderName",
        defaultIfAbsent := none, triggerNo := false },
    homeServerDomain := some
      { id := "home-server-domain-name", targetOwner := .userAuth,
        targetField := "homeServerDomainName",
        defaultIfAbsent := some "https://localhost:3000", triggerNo := true } }

/-! ## Hierarchical trust wildcard matching -/

/-- An identity created under the hierarchical naming convention
`{service}/{component}-{accountId}-{region}`. -/
structure HierarchicalIdentity where
  service : String
  component : String
  accountId : String
  region : String
deriving DecidableEq, Repr

/-- The role name of a hierarchical identity. -/
def HierarchicalIdentity.roleName (i : HierarchicalIdentity) : String :=
  i.service ++ "/" ++ i.component ++ "-" ++ i.accountId ++ "-" ++ i.region

/-- The IAM principal ARN of a hierarchical identity: the role lives in the
identity's own account. -/
def HierarchicalIdentity.principalArn (i : HierarchicalIdentity) : String :=
  "arn:aws:iam::" ++ i.accountId ++ ":role/" ++ i.roleName

/-- Character-list prefix test (kept on `List Char` so that it evaluates by
kernel reduction). -/
def charsLeadingPart : List Char → List Char → Bool
  | [], _ => true
  | _ :: _, [] => false
  | a :: as, b :: bs => a == b && charsLeadingPart as bs

/-- Modelled from the spec: the trust matcher is a string contract (AWS
`StringLike` condition in HIERARCHICAL_NAMING_CONVENTION.md), not code of
this repository.  A pattern with a single trailing `*` matches any string
that starts with the part before the `*`; a pattern without `*` matches only
itself. -/
def stringLikeMatch (pat : String) (s : String) : Bool :=
  if pat.data.getLast? == some '*' then charsLeadingPart pat.data.dropLast s.data
  else pat.data == s.data

/-- The wildcard trust pattern a consuming service grants: the service's
namespace wildcard `{service}/*`, scoped to the granting account by embedding
it in the principal-ARN condition
`arn:aws:iam::{accountId}:role/{service}/*`. -/
def wildcardTrustPattern (service : String) (accountId : String) : String :=
  "arn:aws:iam::" ++ accountId ++ ":role/" ++ service ++ "/*"

/-- The hierarchical trust decision: does the wildcard pattern for `service`
scoped to `accountId` accept the given identity? -/
def hierarchicalTrustMatch (service : String) (accountId : String)
    (i : HierarchicalIdentity) : Bool :=
  stringLikeMatch (wildcardTrustPattern service accountId) i.principalArn

example : hierarchicalTrustMatch "embedding" "111"
    { service := "embedding", component := "s3-poller", accountId := "111", region := "us-east-1" } = true := by decide

/-! ## Helper lemmas -/

/-- Construction of a build performs no wiring events. -/
theorem buildConstructionEvents_no_wire (b : BuildId) :
    ∀ e ∈ buildConstructionEvents b, e.isWire = false := by
  cases b <;> decide

/-- Construction of any list of builds performs no wiring events. -/
theorem constructionEvents_no_wire (builds : List BuildId) :
    ∀ e ∈ builds.flatMap buildConstructionEvents, e.isWire = false := by
  intro e he
  rw [List.mem_flatMap] at he
  obtain ⟨b, _, heb⟩ := he
  exact buildConstructionEvents_no_wire b e heb

/-- A list whose dedup has full length is duplicate-free. -/
theorem not_nodup_dedup_length_ne (l : List BuildId) (h : ¬ l.Nodup) :
    l.dedup.length ≠ l.length := by
  intro hlen
  have hd : l.dedup = l := l.dedup_sublist.eq_of_length hlen
  exact h (hd ▸ l.nodup_dedup)

/-! ## Claim theorems -/

/-- C1 (counterexample): the claim that the constructor invokes
`wireConsuming()` on every ServiceBuild — including embedding and generation —
fails: `RagGenerationBuild` defines `wireConsuming()` (generation.ts lines
208–210) yet the constructor's wiring pass never invokes it, and it never
invokes any wiring on the embedding build either. -/
theorem wireConsuming_not_invoked_on_generation :
    definesWireConsuming BuildId.generation = true ∧
    BuildId.generation ∉ wireStartsOf ragConstructorTrace ∧
    BuildId.embedding ∉ wireStartsOf ragConstructorTrace := by decide

/-- C1 (amended): by the time the constructor returns, `wireConsuming()` has
run exactly once on each of document processing, vector storage, knowledge
retrieval, user auth and document ingestion, in that order — and on no other
build: the embedding build defines no `wireConsuming()` (its envers create
their consumer in their constructor), and the generation build's
`wireConsuming()` is never invoked. -/
theorem wireConsuming_invocation_sequence :
    wireStartsOf ragConstructorTrace
      = [BuildId.processing, BuildId.vectorStorage, BuildId.knowledgeRetrieval,
         BuildId.userAuth, BuildId.ingestion] ∧
    (wireStartsOf ragConstructorTrace).Nodup ∧
    (wireStartsOf ragConstructorTrace).count BuildId.processing = 1 ∧
    (wireStartsOf ragConstructorTrace).count BuildId.vectorStorage = 1 ∧
    (wireStartsOf ragConstructorTrace).count BuildId.knowledgeRetrieval = 1 ∧
    (wireStartsOf ragConstructorTrace).count BuildId.userAuth = 1 ∧
    (wireStartsOf ragConstructorTrace).count BuildId.ingestion = 1 := by decide

/-- C2 (counterexample): the very first wiring call —
`RagDocumentProcessingBuild.wireConsuming()` — reads the ingestion enver's
`documentStorageResources` producer, while the ingestion build's own
`wireConsuming()` only completes last; so the wiring order does read
producers of builds whose own `wireConsuming()` has not yet completed. -/
theorem processing_wiring_reads_unwired_ingestion_producer :
    (BuildId.processing, BuildId.ingestion, "documentStorageResources")
      ∈ wiringOrderViolations ragConstructorTrace ∧
    wiringOrderViolations ragConstructorTrace ≠ [] := by decide

/-- C2 (amended): no `wireConsuming()` call ever reads a Producer belonging
to a ServiceBuild whose *construction* has not yet completed: every producer
read in the constructor's trace (during construction and during wiring alike)
happens after the `buildConstructed` event of the build owning the read
producer.  The fixed order guarantees construction-before-wiring, not
wiring-before-read. -/
theorem wiring_reads_only_constructed_producers :
    readsRespectConstruction ragConstructorTrace = true := by decide

/-- C3 (counterexample): the `RagEmbeddingEnver` constructor (embedding.ts
lines 49–58) creates the `processedContentSubscription` consumer during the
construction phase, before any `wireConsuming()` call — so not every consumer
is created during the wiring pass. -/
theorem embedding_consumer_created_in_enver_constructor :
    (BuildId.embedding, "dev", "processedContentSubscription")
      ∈ consumersCreatedIn (constructionPhase ragConstructorTrace) := by decide

/-- C3 (amended): the only consumers created outside the wiring pass are the
two embedding envers' `processedContentSubscription` (created in the
`RagEmbeddingEnver` constructor); every other consumer is created during the
wiring pass, which starts only after all nine builds have completed
construction, and no producer is created during the wiring phase. -/
theorem consumers_created_during_wiring_except_embedding :
    consumersCreatedIn (constructionPhase ragConstructorTrace)
      = [(BuildId.embedding, "dev", "processedContentSubscription"),
         (BuildId.embedding, "prod", "processedContentSubscription")] ∧
    buildsConstructedIn (constructionPhase ragConstructorTrace) = ragOdmdBuilds ∧
    producersCreatedIn (wiringPhase ragConstructorTrace) = [] := by decide

/-- C4: a first `new RagContracts(app)` on an unset `_inst`, whose body
raises no error (valid environment, duplicate-free builds), succeeds and
makes the instance retrievable through `RagContracts.inst`; once `_inst`
holds an instance, every further construction attempt raises the singleton
error and leaves `inst` returning the first instance. -/
theorem ragContracts_singleton_guard
    (builds : List BuildId) (env : EnvConfig) (id1 : Nat)
    (hOk : (ragConstructorBody builds env).error = none) :
    (constructRagContracts initialGlobalState id1 builds env).result = Except.ok id1 ∧
    ragContractsInst (constructRagContracts initialGlobalState id1 builds env).state = some id1 ∧
    (∀ (s : GlobalState) (id2 : Nat) (builds2 : List BuildId) (env2 : EnvConfig),
      ragContractsInst s = some id1 →
      (constructRagContracts s id2 builds2 env2).result = Except.error RagError.singletonViolation ∧
      ragContractsInst (constructRagContracts s id2 builds2 env2).state = some id1) := by
  have hfirst : constructRagContracts initialGlobalState id1 builds env
      = { state := { inst := some id1 }, result := Except.ok id1,
          run := (ragConstructorBody builds env).events } := by
    unfold constructRagContracts
    rw [hOk]
    rfl
  refine ⟨by rw [hfirst], by rw [hfirst]; rfl, ?_⟩
  intro s id2 builds2 env2 hs
  have hinst : s.inst = some id1 := hs
  have hagain : constructRagContracts s id2 builds2 env2
      = { state := s, result := Except.error RagError.singletonViolation, run := [] } := by
    unfold constructRagContracts
    rw [hinst]
  exact ⟨by rw [hagain], by rw [hagain]; exact hs⟩

/-- C4 (witness): with the test environment and the actual build list, the
first construction succeeds with instance 1 and all later attempts fail,
leaving `inst` at instance 1. -/
theorem ragContracts_singleton_guard_witness :
    (ragConstructorBody ragOdmdBuilds validEnv).error = none ∧
    ((constructRagContracts initialGlobalState 1 ragOdmdBuilds validEnv).result = Except.ok 1 ∧
     ragContractsInst (constructRagContracts initialGlobalState 1 ragOdmdBuilds validEnv).state = some 1 ∧
     (∀ (s : GlobalState) (id2 : Nat) (builds2 : List BuildId) (env2 : EnvConfig),
       ragContractsInst s = some 1 →
       (constructRagContracts s id2 builds2 env2).result = Except.error RagError.singletonViolation ∧
       ragContractsInst (constructRagContracts s id2 builds2 env2).state = some 1)) :=
  ⟨by decide, ragContracts_singleton_guard ragOdmdBuilds validEnv 1 (by decide)⟩

/-- C5: when `odmdBuilds` contains a duplicate registration, the constructor
body raises the duplicated-builds error, and the events it has executed
contain no wiring events at all — a corrupted registry never begins
wiring. -/
theorem duplicate_builds_abort_before_wiring
    (builds : List BuildId) (env : EnvConfig) (h : ¬ builds.Nodup) :
    (ragConstructorBody builds env).error = some RagError.duplicatedBuilds ∧
    ∀ e ∈ (ragConstructorBody builds env).events, e.isWire = false := by
  have hne : builds.dedup.length ≠ builds.length := not_nodup_dedup_length_ne builds h
  have hbody : ragConstructorBody builds env
      = { events := builds.flatMap buildConstructionEvents,
          error := some RagError.duplicatedBuilds } := by
    unfold ragConstructorBody
    rw [if_pos hne]
  exact ⟨by rw [hbody], by rw [hbody]; exact constructionEvents_no_wire builds⟩

/-- C5 (witness): a registry whose build list registers the ingestion build
twice fails with the duplicated-builds error without executing any wiring
event. -/
theorem duplicate_builds_abort_before_wiring_witness :
    ¬ ([BuildId.ingestion, BuildId.ingestion].Nodup) ∧
    ((ragConstructorBody [BuildId.ingestion, BuildId.ingestion] validEnv).error
        = some RagError.duplicatedBuilds ∧
     ∀ e ∈ (ragConstructorBody [BuildId.ingestion, BuildId.ingestion] validEnv).events,
       e.isWire = false) :=
  ⟨by decide, duplicate_builds_abort_before_wiring
    [BuildId.ingestion, BuildId.ingestion] validEnv (by decide)⟩

/-- C6 (counterexample): the claim that reading a consumer field before
`wireConsuming()` raises, and that a second `wireConsuming()` call raises,
fails on `RagVectorStorageEnver`: before wiring the `embeddingSubscription`
field is simply `undefined` (`none`), and in this repository's code a second
`wireConsuming()` call just repeats the same assignments, producing the same
state with no error. -/
theorem vectorStorage_consumer_read_before_wiring_yields_undefined :
    ragVectorStorageEnverInit.embeddingSubscription = none ∧
    ragVectorStorageWireConsuming (ragVectorStorageWireConsuming ragVectorStorageEnverInit)
      = ragVectorStorageWireConsuming ragVectorStorageEnverInit := by decide

/-- C6 (amended): `RagVectorStorageEnver` has no wired-state guard: all five
consumer fields are `undefined` (`none`) before `wireConsuming()` runs —
reading them yields `undefined` rather than raising — a second
`wireConsuming()` call merely repeats the same assignments with no error in
this repository's code, and after wiring every consumer field is
populated. -/
theorem wireConsuming_lifecycle_unguarded :
    (ragVectorStorageEnverInit.embeddingSubscription = none ∧
     ragVectorStorageEnverInit.embeddingStatusSchemaS3Url = none ∧
     ragVectorStorageEnverInit.authProviderClientId = none ∧
     ragVectorStorageEnverInit.authProviderName = none ∧
     ragVectorStorageEnverInit.homeServerDomain = none) ∧
    (∀ s : RagVectorStorageEnverState,
      ragVectorStorageWireConsuming (ragVectorStorageWireConsuming s)
        = ragVectorStorageWireConsuming s) ∧
    ((ragVectorStorageWireConsuming ragVectorStorageEnverInit).embeddingSubscription.isSome = true ∧
     (ragVectorStorageWireConsuming ragVectorStorageEnverInit).embeddingStatusSchemaS3Url.isSome = true ∧
     (ragVectorStorageWireConsuming ragVectorStorageEnverInit).authProviderClientId.isSome = true ∧
     (ragVectorStorageWireConsuming ragVectorStorageEnverInit).authProviderName.isSome = true ∧
     (ragVectorStorageWireConsuming ragVectorStorageEnverInit).homeServerDomain.isSome = true) :=
  ⟨by decide, fun _ => rfl, by decide⟩

/-- C7: for every producer tree with named accessors in the library, ordinal
and name addressing agree: each named getter returns exactly the child
declared with the corresponding `pathPart` at the same ordinal position — for
the three children of `DocumentStorageResourceProducer`, the six children of
`VectorStorageProducer`, and likewise for every other producer tree
(`VectorStorageStatusApiProducer`, `ProcessedContentEventProducer`,
`EmbeddingStorageProducer`, `VectorSearchProxyApiProducer`,
`GenerationApiProducer`). -/
theorem producer_ordinal_and_name_addressing_agree :
    (DocumentStorageResourceProducer.documentBucket
        = nodeByNamePath DocumentStorageResourceProducer.children ["document-bucket"] ∧
      DocumentStorageResourceProducer.documentBucket.map ResourceNode.pathPart
        = some "document-bucket") ∧
    (DocumentStorageResourceProducer.quarantineBucket
        = nodeByNamePath DocumentStorageResourceProducer.children ["quarantine-bucket"] ∧
      DocumentStorageResourceProducer.quarantineBucket.map ResourceNode.pathPart
        = some "quarantine-bucket") ∧
    (DocumentStorageResourceProducer.documentMetadataSchemaS3Url
        = nodeByNamePath DocumentStorageResourceProducer.children ["document-metadata-schema-s3-url"] ∧
      DocumentStorageResourceProducer.documentMetadataSchemaS3Url.map ResourceNode.pathPart
        = some "document-metadata-schema-s3-url") ∧
    (VectorStorageProducer.vectorDatabaseEndpoint
        = nodeByNamePath VectorStorageProducer.children ["vector-database-endpoint"] ∧
      VectorStorageProducer.vectorDatabaseEndpoint.map ResourceNode.pathPart
        = some "vector-database-endpoint") ∧
    (VectorStorageProducer.vectorIndexName
        = nodeByNamePath VectorStorageProducer.children ["vector-index-name"] ∧
      VectorStorageProducer.vectorIndexName.map ResourceNode.pathPart
        = some "vector-index-name") ∧
    (VectorStorageProducer.vectorMetadataBucket
        = nodeByNamePath VectorStorageProducer.children ["vector-metadata-bucket"] ∧
      VectorStorageProducer.vectorMetadataBucket.map ResourceNode.pathPart
        = some "vector-metadata-bucket") ∧
    (VectorStorageProducer.vectorBackupBucket
        = nodeByNamePath VectorStorageProducer.children ["vector-backup-bucket"] ∧
      VectorStorageProducer.vectorBackupBucket.map ResourceNode.pathPart
        = some "vector-backup-bucket") ∧
    (VectorStorageProducer.upsertRequestSchemaS3Url
        = nodeByNamePath VectorStorageProducer.children ["upsert-request-schema-s3-url"] ∧
      VectorStorageProducer.upsertRequestSchemaS3Url.map ResourceNode.pathPart
        = some "upsert-request-schema-s3-url") ∧
    (VectorStorageProducer.vectorMetadataSchemaS3Url
        = nodeByNamePath VectorStorageProducer.children ["vector-metadata-schema-s3-url"] ∧
      VectorStorageProducer.vectorMetadataSchemaS3Url.map ResourceNode.pathPart
        = some "vector-metadata-schema-s3-url") ∧
    (VectorStorageStatusApiProducer.statusApiEndpoint
        = nodeByNamePath VectorStorageStatusApiProducer.children ["status-api-endpoint"] ∧
      VectorStorageStatusApiProducer.statusResponseSchema
        = nodeByNamePath VectorStorageStatusApiProducer.children ["status-response-schema"]) ∧
    (ProcessedContentEventProducer.eventBridge
        = nodeByNamePath ProcessedContentEventProducer.children ["processed-content-bus"] ∧
      ProcessedContentEventProducer.contentProcessedSchema
        = nodeByNamePath ProcessedContentEventProducer.children
            ["processed-content-bus", "content-processed-event-schema"] ∧
      ProcessedContentEventProducer.processingCompletedSchema
        = nodeByNamePath ProcessedContentEventProducer.children
            ["processed-content-bus", "processing-completed-event-schema"]) ∧
    (EmbeddingStorageProducer.embeddingsBucket
        = nodeByNamePath EmbeddingStorageProducer.children ["embeddings-bucket"] ∧
      EmbeddingStorageProducer.embeddingStatusBucket
        = nodeByNamePath EmbeddingStorageProducer.children ["embedding-status-bucket"]) ∧
    (VectorSearchProxyApiProducer.proxyApi
        = nodeByNamePath VectorSearchProxyApiProducer.children ["vector-search-proxy-api"] ∧
      VectorSearchProxyApiProducer.vectorSearchEndpoint
        = nodeByNamePath VectorSearchProxyApiProducer.children
            ["vector-search-proxy-api", "vector-search-endpoint"] ∧
      VectorSearchProxyApiProducer.healthCheckEndpoint
        = nodeByNamePath VectorSearchProxyApiProducer.children
            ["vector-search-proxy-api", "health-check-endpoint"] ∧
      VectorSearchProxyApiProducer.searchRequestSchema
        = nodeByNamePath VectorSearchProxyApiProducer.children
            ["vector-search-proxy-api", "search-request-schema"] ∧
      VectorSearchProxyApiProducer.searchResponseSchema
        = nodeByNamePath VectorSearchProxyApiProducer.children
            ["vector-search-proxy-api", "search-response-schema"] ∧
      VectorSearchProxyApiProducer.homeServerConfig
        = nodeByNamePath VectorSearchProxyApiProducer.children
            ["vector-search-proxy-api", "home-server-config"]) ∧
    (GenerationApiProducer.generationApi
        = nodeByNamePath GenerationApiProducer.children ["generation-api"] ∧
      GenerationApiProducer.generationRequestSchema
        = nodeByNamePath GenerationApiProducer.children
            ["generation-api", "generation-request-schema"] ∧
      GenerationApiProducer.generationResponseSchema
        = nodeByNamePath GenerationApiProducer.children
            ["generation-api", "generation-response-schema"] ∧
      GenerationApiProducer.conversationSchema
        = nodeByNamePath GenerationApiProducer.children
            ["generation-api", "conversation-schema"] ∧
      GenerationApiProducer.feedbackSchema
        = nodeByNamePath GenerationApiProducer.children
            ["generation-api", "feedback-schema"] ∧
      GenerationApiProducer.webUiCloudFrontUrl
        = nodeByNamePath GenerationApiProducer.children ["web-ui-cloudfront-url"] ∧
      GenerationApiProducer.webUiS3Bucket
        = nodeByNamePath GenerationApiProducer.children ["web-ui-s3-bucket"]) :=
  ⟨⟨rfl, rfl⟩, ⟨rfl, rfl⟩, ⟨rfl, rfl⟩, ⟨rfl, rfl⟩, ⟨rfl, rfl⟩, ⟨rfl, rfl⟩,
   ⟨rfl, rfl⟩, ⟨rfl, rfl⟩, ⟨rfl, rfl⟩, ⟨rfl, rfl⟩, ⟨rfl, rfl, rfl⟩, ⟨rfl, rfl⟩,
   ⟨rfl, rfl, rfl, rfl, rfl, rfl⟩, ⟨rfl, rfl, rfl, rfl, rfl, rfl, rfl⟩⟩

/-- C8: a consumer that declares a `defaultIfAbsent` fallback — here the
document-processing enver's `documentBucket` consumer with fallback
`default-bucket-name` — resolves to exactly that fallback string whenever its
target has never been resolved, and never to `none`. -/
theorem defaultIfAbsent_fallback_resolution
    (store : ResolutionStore) (h : storeLookup store documentBucketConsumer = none) :
    getSharedValue store documentBucketConsumer = some "default-bucket-name" ∧
    getSharedValue store documentBucketConsumer ≠ none := by
  have hval : getSharedValue store documentBucketConsumer = some "default-bucket-name" := by
    unfold getSharedValue
    unfold storeLookup at h
    rw [h]
    rfl
  exact ⟨hval, by rw [hval]; exact Option.some_ne_none _⟩

/-- C8 (witness): against an empty resolution store (nothing ever resolved),
the `documentBucket` consumer resolves to `default-bucket-name`. -/
theorem defaultIfAbsent_fallback_resolution_witness :
    storeLookup ([] : ResolutionStore) documentBucketConsumer = none ∧
    (getSharedValue ([] : ResolutionStore) documentBucketConsumer = some "default-bucket-name" ∧
     getSharedValue ([] : ResolutionStore) documentBucketConsumer ≠ none) :=
  ⟨rfl, defaultIfAbsent_fallback_resolution ([] : ResolutionStore) rfl⟩

/-- C9: the hierarchical trust matcher for the wildcard pattern `embedding/*`
scoped to account `111` accepts `embedding/s3-poller-111-us-east-1`, rejects
`document-processing/processor-111-us-east-1` (different service prefix), and
rejects `embedding/processor-222-us-east-1` (different account). -/
theorem hierarchical_trust_wildcard_scenario :
    hierarchicalTrustMatch "embedding" "111"
      { service := "embedding", component := "s3-poller",
        accountId := "111", region := "us-east-1" } = true ∧
    hierarchicalTrustMatch "embedding" "111"
      { service := "document-processing", component := "processor",
        accountId := "111", region := "us-east-1" } = false ∧
    hierarchicalTrustMatch "embedding" "111"
      { service := "embedding", component := "processor",
        accountId := "222", region := "us-east-1" } = false := by decide

/-- C10: before any `RagContracts` has been constructed, the static accessor
`RagContracts.inst` returns `undefined` (`none`): it is a plain read of the
static `_inst` field, so it neither throws nor constructs an instance. -/
theorem ragContracts_inst_undefined_before_construction :
    ragContractsInst initialGlobalState = none ∧
    ∀ s : GlobalState, ragContractsInst s = s.inst :=
  ⟨rfl, fun _ => rfl⟩
